import Mathlib

/-!
# uptime-kuma-discord-relay: the `/webhook` handler and process start-up

A shallow embedding of `main.go`.

* The request body is represented by what the JSON scanner makes of it
  (`RequestBody`): either scanning the first JSON value fails, or the body
  starts with a JSON value (`JValue`) and goes on with text that is never read.
* `ShouldBindJSON` stores a JSON value into a `webhookPayload`, field by field,
  the way Go's `encoding/json` does for the struct declared in `main.go`.
* `webhookHandler` is the closure registered for `POST /webhook`.  The variables
  of `main` it captures (`config`, `err`) are passed in and out explicitly as
  `Shared`; the outbound transport is the function `post`.
* `LoadConfig` and `main` take the file system, the TOML decoder and the HTTP
  server as arguments.
-/

namespace UptimeKumaRelay

/-! ## Go values -/

/-- A Go `error` value.  `msg` is an error described by its text alone (scanner,
input/output and transport errors); `unmarshalType` is
`*json.UnmarshalTypeError`, with the description of the offending JSON value and
the path of the struct field it was meant for. -/
inductive GoError where
  | msg (text : String)
  | unmarshalType (value : String) (field : String)
  deriving DecidableEq, Repr

/-- A JSON value as the scanner reads it.  A number literal without fraction and
exponent is `int`; any other number literal is `float` and keeps its text. -/
inductive JValue where
  | null
  | bool (b : Bool)
  | int (n : Int)
  | float (lit : String)
  | str (s : String)
  | arr (elems : List JValue)
  | obj (members : List (String × JValue))

/-- The request body as `json.Decoder` sees it: reading the first JSON value
fails with an error (malformed text, empty body, read error), or yields a value
`v`; `rest` is the text of the body that follows that value, which `Decode`
never reads. -/
inductive RequestBody where
  | malformed (err : GoError)
  | json (v : JValue) (rest : String)

/-- Description of a JSON value in an `UnmarshalTypeError`. -/
def JValue.describe : JValue → String
  | .null => "null"
  | .bool _ => "bool"
  | .int _ => "number"
  | .float _ => "number"
  | .str _ => "string"
  | .arr _ => "array"
  | .obj _ => "object"

/-! ## Field names -/

/-- Case folding of one character of a JSON key, as a code point.  The decoder
folds a character to the smallest one of its case-folding orbit: an ASCII letter
to its upper case, U+017F (long s) to `S`, U+212A (Kelvin sign) to `K`.  These are
the only characters that fold to an ASCII one; the field names of `main.go` are
ASCII, so every other character is kept as it is. -/
def foldRune (c : Char) : Nat :=
  if 97 ≤ c.toNat ∧ c.toNat ≤ 122 then c.toNat - 32
  else if c.toNat = 0x17F then 83
  else if c.toNat = 0x212A then 75
  else c.toNat

/-- Folded form of a JSON key. -/
def foldName (s : String) : List Nat := s.data.map foldRune

/-- A key of the body selects the struct field tagged `name`: the names are
equal, or equal after case folding.  No two fields of one struct of `main.go`
have names that fold alike, so a key selects at most one field. -/
def fieldMatch (key name : String) : Bool :=
  key == name || foldName key == foldName name

/-! ## Storing JSON values into Go values -/

/-- The first error met is the one reported. -/
def saveError (saved : Option GoError) (e : Option GoError) : Option GoError :=
  match saved with
  | some s => some s
  | none => e

/-- Store a JSON value into an `int` (64 bits).  `null` leaves it alone. -/
def decodeInt (field : String) (old : Int) : JValue → Int × Option GoError
  | .null => (old, none)
  | .int n =>
    if -(2 ^ 63 : Int) ≤ n ∧ n < 2 ^ 63 then (n, none)
    else (old, some (.unmarshalType ("number " ++ toString n) field))
  | .float lit => (old, some (.unmarshalType ("number " ++ lit) field))
  | v => (old, some (.unmarshalType v.describe field))

/-- Store a JSON value into a `string`.  `null` leaves it alone. -/
def decodeString (field : String) (old : String) : JValue → String × Option GoError
  | .null => (old, none)
  | .str s => (s, none)
  | v => (old, some (.unmarshalType v.describe field))

/-- Store a JSON value into a `bool`.  `null` leaves it alone. -/
def decodeBool (field : String) (old : Bool) : JValue → Bool × Option GoError
  | .null => (old, none)
  | .bool b => (b, none)
  | v => (old, some (.unmarshalType v.describe field))

/-- A Go `[]string`: its elements, and what its backing array holds past its
length (`spare`), as far as that is not the zero value.  The nil slice is `{}`. -/
structure StringSlice where
  elems : List String := []
  spare : List String := []
  deriving DecidableEq, Repr

/-- Store the elements of a JSON array into the backing array of a `[]string`:
element `i` is stored into position `i` of the array, which holds what an earlier
decoding left there, or the zero value `""` past what the array holds. -/
def decodeStringElems (field : String) : List String → List JValue → List String × Option GoError
  | _, [] => ([], none)
  | backing, v :: vs =>
    let r := decodeString field (backing.headD "") v
    let rs := decodeStringElems field backing.tail vs
    (r.1 :: rs.1, saveError r.2 rs.2)

/-- Store a JSON value into a `[]string`.  `null` makes it nil and `[]` makes it
a new empty slice.  A longer array is stored into the backing array from position
0 on and the slice is cut to the number of elements; what the backing array holds
past that length stays there. -/
def decodeStringSlice (field : String) (old : StringSlice) : JValue → StringSlice × Option GoError
  | .null => ({}, none)
  | .arr [] => ({}, none)
  | .arr (v :: vs) =>
    let r := decodeStringElems field (old.elems ++ old.spare) (v :: vs)
    ({ elems := r.1, spare := (old.elems ++ old.spare).drop (v :: vs).length }, r.2)
  | v => (old, some (.unmarshalType v.describe field))

/-- Assign `m[k] = x` on a Go map kept as an association list. -/
def mapAssign {α : Type} (m : List (String × α)) (k : String) (x : α) : List (String × α) :=
  (m.filter fun p => p.1 != k) ++ [(k, x)]

/-- Store the members of a JSON object into a `map[string]bool`; each value is
decoded into a fresh element. -/
def decodeBoolMembers (field : String) :
    List (String × Bool) → List (String × JValue) → List (String × Bool) × Option GoError
  | m, [] => (m, none)
  | m, (k, v) :: kvs =>
    let r := decodeBool field false v
    let rs := decodeBoolMembers field (mapAssign m k r.1) kvs
    (rs.1, saveError r.2 rs.2)

/-- Store a JSON value into a `map[string]bool`.  `null` makes it nil. -/
def decodeBoolMap (field : String) (old : List (String × Bool)) :
    JValue → List (String × Bool) × Option GoError
  | .null => ([], none)
  | .obj kvs => decodeBoolMembers field old kvs
  | v => (old, some (.unmarshalType v.describe field))

/-- Store the members of a JSON object into a `map[string]string`. -/
def decodeStringMembers (field : String) :
    List (String × String) → List (String × JValue) → List (String × String) × Option GoError
  | m, [] => (m, none)
  | m, (k, v) :: kvs =>
    let r := decodeString field "" v
    let rs := decodeStringMembers field (mapAssign m k r.1) kvs
    (rs.1, saveError r.2 rs.2)

/-- Store a JSON value into a `map[string]string`.  `null` makes it nil. -/
def decodeStringMap (field : String) (old : List (String × String)) :
    JValue → List (String × String) × Option GoError
  | .null => ([], none)
  | .obj kvs => decodeStringMembers field old kvs
  | v => (old, some (.unmarshalType v.describe field))

/-! ## The payload -/

/-- The anonymous struct of `webhookPayload.Heartbeat`; every field starts at its zero value. -/
structure Heartbeat where
  MonitorID : Int := 0
  Status : Int := 0
  Time : String := ""
  Msg : String := ""
  Important : Bool := false
  Duration : Int := 0

/-- The anonymous struct of `webhookPayload.Monitor`; every field starts at its zero value. -/
structure Monitor where
  ID : Int := 0
  Name : String := ""
  Description : String := ""
  URL : String := ""
  Method : String := ""
  Hostname : String := ""
  Port : String := ""
  MaxRetries : Int := 0
  Weight : Int := 0
  Active : Bool := false
  Type_ : String := ""
  Interval : Int := 0
  RetryInterval : Int := 0
  ResendInterval : Int := 0
  Keyword : String := ""
  ExpiryNotification : Bool := false
  IgnoreTls : Bool := false
  UpsideDown : Bool := false
  PacketSize : Int := 0
  MaxRedirects : Int := 0
  AcceptedStatusCodes : StringSlice := {}
  DnsResolveType : String := ""
  DnsResolveServer : String := ""
  DnsLastResult : String := ""
  DockerContainer : String := ""
  DockerHost : String := ""
  ProxyID : String := ""
  NotificationIDList : List (String × Bool) := []
  Tags : StringSlice := {}
  Maintenance : Bool := false
  MqttTopic : String := ""
  MqttSuccessMessage : String := ""
  DatabaseQuery : String := ""
  AuthMethod : List (String × String) := []
  GrpcUrl : String := ""
  GrpcProtobuf : String := ""
  GrpcMethod : String := ""
  GrpcServiceName : String := ""
  GrpcEnableTls : Bool := false
  RadiusCalledStationId : String := ""
  RadiusCallingStationId : String := ""
  Game : String := ""

/-- Store one member of a JSON object into the heartbeat struct: the member goes to
the field its key selects, a key that selects no field is skipped. -/
def Heartbeat.setMember (h : Heartbeat) (key : String) (v : JValue) :
    Heartbeat × Option GoError :=
  if fieldMatch key "monitorID" then
    let r := decodeInt "heartbeat.monitorID" h.MonitorID v
    ({ h with MonitorID := r.1 }, r.2)
  else if fieldMatch key "status" then
    let r := decodeInt "heartbeat.status" h.Status v
    ({ h with Status := r.1 }, r.2)
  else if fieldMatch key "time" then
    let r := decodeString "heartbeat.time" h.Time v
    ({ h with Time := r.1 }, r.2)
  else if fieldMatch key "msg" then
    let r := decodeString "heartbeat.msg" h.Msg v
    ({ h with Msg := r.1 }, r.2)
  else if fieldMatch key "important" then
    let r := decodeBool "heartbeat.important" h.Important v
    ({ h with Important := r.1 }, r.2)
  else if fieldMatch key "duration" then
    let r := decodeInt "heartbeat.duration" h.Duration v
    ({ h with Duration := r.1 }, r.2)
  else (h, none)

/-- Store one member of a JSON object into the monitor struct. -/
def Monitor.setMember (m : Monitor) (key : String) (v : JValue) :
    Monitor × Option GoError :=
  if fieldMatch key "id" then
    let r := decodeInt "monitor.id" m.ID v
    ({ m with ID := r.1 }, r.2)
  else if fieldMatch key "name" then
    let r := decodeString "monitor.name" m.Name v
    ({ m with Name := r.1 }, r.2)
  else if fieldMatch key "description" then
    let r := decodeString "monitor.description" m.Description v
    ({ m with Description := r.1 }, r.2)
  else if fieldMatch key "url" then
    let r := decodeString "monitor.url" m.URL v
    ({ m with URL := r.1 }, r.2)
  else if fieldMatch key "method" then
    let r := decodeString "monitor.method" m.Method v
    ({ m with Method := r.1 }, r.2)
  else if fieldMatch key "hostname" then
    let r := decodeString "monitor.hostname" m.Hostname v
    ({ m with Hostname := r.1 }, r.2)
  else if fieldMatch key "port" then
    let r := decodeString "monitor.port" m.Port v
    ({ m with Port := r.1 }, r.2)
  else if fieldMatch key "maxretries" then
    let r := decodeInt "monitor.maxretries" m.MaxRetries v
    ({ m with MaxRetries := r.1 }, r.2)
  else if fieldMatch key "weight" then
    let r := decodeInt "monitor.weight" m.Weight v
    ({ m with Weight := r.1 }, r.2)
  else if fieldMatch key "active" then
    let r := decodeBool "monitor.active" m.Active v
    ({ m with Active := r.1 }, r.2)
  else if fieldMatch key "type" then
    let r := decodeString "monitor.type" m.Type_ v
    ({ m with Type_ := r.1 }, r.2)
  else if fieldMatch key "interval" then
    let r := decodeInt "monitor.interval" m.Interval v
    ({ m with Interval := r.1 }, r.2)
  else if fieldMatch key "retryInterval" then
    let r := decodeInt "monitor.retryInterval" m.RetryInterval v
    ({ m with RetryInterval := r.1 }, r.2)
  else if fieldMatch key "resendInterval" then
    let r := decodeInt "monitor.resendInterval" m.ResendInterval v
    ({ m with ResendInterval := r.1 }, r.2)
  else if fieldMatch key "keyword" then
    let r := decodeString "monitor.keyword" m.Keyword v
    ({ m with Keyword := r.1 }, r.2)
  else if fieldMatch key "expiryNotification" then
    let r := decodeBool "monitor.expiryNotification" m.ExpiryNotification v
    ({ m with ExpiryNotification := r.1 }, r.2)
  else if fieldMatch key "ignoreTls" then
    let r := decodeBool "monitor.ignoreTls" m.IgnoreTls v
    ({ m with IgnoreTls := r.1 }, r.2)
  else if fieldMatch key "upsideDown" then
    let r := decodeBool "monitor.upsideDown" m.UpsideDown v
    ({ m with UpsideDown := r.1 }, r.2)
  else if fieldMatch key "packetSize" then
    let r := decodeInt "monitor.packetSize" m.PacketSize v
    ({ m with PacketSize := r.1 }, r.2)
  else if fieldMatch key "maxredirects" then
    let r := decodeInt "monitor.maxredirects" m.MaxRedirects v
    ({ m with MaxRedirects := r.1 }, r.2)
  else if fieldMatch key "accepted_statuscodes" then
    let r := decodeStringSlice "monitor.accepted_statuscodes" m.AcceptedStatusCodes v
    ({ m with AcceptedStatusCodes := r.1 }, r.2)
  else if fieldMatch key "dns_resolve_type" then
    let r := decodeString "monitor.dns_resolve_type" m.DnsResolveType v
    ({ m with DnsResolveType := r.1 }, r.2)
  else if fieldMatch key "dns_resolve_server" then
    let r := decodeString "monitor.dns_resolve_server" m.DnsResolveServer v
    ({ m with DnsResolveServer := r.1 }, r.2)
  else if fieldMatch key "dns_last_result" then
    let r := decodeString "monitor.dns_last_result" m.DnsLastResult v
    ({ m with DnsLastResult := r.1 }, r.2)
  else if fieldMatch key "docker_container" then
    let r := decodeString "monitor.docker_container" m.DockerContainer v
    ({ m with DockerContainer := r.1 }, r.2)
  else if fieldMatch key "docker_host" then
    let r := decodeString "monitor.docker_host" m.DockerHost v
    ({ m with DockerHost := r.1 }, r.2)
  else if fieldMatch key "proxyId" then
    let r := decodeString "monitor.proxyId" m.ProxyID v
    ({ m with ProxyID := r.1 }, r.2)
  else if fieldMatch key "notificationIDList" then
    let r := decodeBoolMap "monitor.notificationIDList" m.NotificationIDList v
    ({ m with NotificationIDList := r.1 }, r.2)
  else if fieldMatch key "tags" then
    let r := decodeStringSlice "monitor.tags" m.Tags v
    ({ m with Tags := r.1 }, r.2)
  else if fieldMatch key "maintenance" then
    let r := decodeBool "monitor.maintenance" m.Maintenance v
    ({ m with Maintenance := r.1 }, r.2)
  else if fieldMatch key "mqttTopic" then
    let r := decodeString "monitor.mqttTopic" m.MqttTopic v
    ({ m with MqttTopic := r.1 }, r.2)
  else if fieldMatch key "mqttSuccessMessage" then
    let r := decodeString "monitor.mqttSuccessMessage" m.MqttSuccessMessage v
    ({ m with MqttSuccessMessage := r.1 }, r.2)
  else if fieldMatch key "databaseQuery" then
    let r := decodeString "monitor.databaseQuery" m.DatabaseQuery v
    ({ m with DatabaseQuery := r.1 }, r.2)
  else if fieldMatch key "authMethod" then
    let r := decodeStringMap "monitor.authMethod" m.AuthMethod v
    ({ m with AuthMethod := r.1 }, r.2)
  else if fieldMatch key "grpcUrl" then
    let r := decodeString "monitor.grpcUrl" m.GrpcUrl v
    ({ m with GrpcUrl := r.1 }, r.2)
  else if fieldMatch key "grpcProtobuf" then
    let r := decodeString "monitor.grpcProtobuf" m.GrpcProtobuf v
    ({ m with GrpcProtobuf := r.1 }, r.2)
  else if fieldMatch key "grpcMethod" then
    let r := decodeString "monitor.grpcMethod" m.GrpcMethod v
    ({ m with GrpcMethod := r.1 }, r.2)
  else if fieldMatch key "grpcServiceName" then
    let r := decodeString "monitor.grpcServiceName" m.GrpcServiceName v
    ({ m with GrpcServiceName := r.1 }, r.2)
  else if fieldMatch key "grpcEnableTls" then
    let r := decodeBool "monitor.grpcEnableTls" m.GrpcEnableTls v
    ({ m with GrpcEnableTls := r.1 }, r.2)
  else if fieldMatch key "radiusCalledStationId" then
    let r := decodeString "monitor.radiusCalledStationId" m.RadiusCalledStationId v
    ({ m with RadiusCalledStationId := r.1 }, r.2)
  else if fieldMatch key "radiusCallingStationId" then
    let r := decodeString "monitor.radiusCallingStationId" m.RadiusCallingStationId v
    ({ m with RadiusCallingStationId := r.1 }, r.2)
  else if fieldMatch key "game" then
    let r := decodeString "monitor.game" m.Game v
    ({ m with Game := r.1 }, r.2)
  else (m, none)

/-- The decoded body of an uptime-kuma webhook (`webhookPayload` in `main.go`). -/
structure webhookPayload where
  Heartbeat : Heartbeat := {}
  Monitor : Monitor := {}
  Msg : String := ""

/-- Store the members of a JSON object one after the other, in the order of the
body, keeping the first error. -/
def decodeMembers {σ : Type} (set : σ → String → JValue → σ × Option GoError) :
    σ → List (String × JValue) → σ × Option GoError
  | s, [] => (s, none)
  | s, (k, v) :: kvs =>
    let r := set s k v
    let rs := decodeMembers set r.1 kvs
    (rs.1, saveError r.2 rs.2)

/-- Store a JSON value into the heartbeat struct.  `null` leaves it alone. -/
def decodeHeartbeat (old : Heartbeat) : JValue → Heartbeat × Option GoError
  | .null => (old, none)
  | .obj kvs => decodeMembers Heartbeat.setMember old kvs
  | v => (old, some (.unmarshalType v.describe "heartbeat"))

/-- Store a JSON value into the monitor struct.  `null` leaves it alone. -/
def decodeMonitor (old : Monitor) : JValue → Monitor × Option GoError
  | .null => (old, none)
  | .obj kvs => decodeMembers Monitor.setMember old kvs
  | v => (old, some (.unmarshalType v.describe "monitor"))

/-- Store one member of the top-level JSON object into the payload. -/
def webhookPayload.setMember (p : webhookPayload) (key : String) (v : JValue) :
    webhookPayload × Option GoError :=
  if fieldMatch key "heartbeat" then
    let r := decodeHeartbeat p.Heartbeat v
    ({ p with Heartbeat := r.1 }, r.2)
  else if fieldMatch key "monitor" then
    let r := decodeMonitor p.Monitor v
    ({ p with Monitor := r.1 }, r.2)
  else if fieldMatch key "msg" then
    let r := decodeString "msg" p.Msg v
    ({ p with Msg := r.1 }, r.2)
  else (p, none)

/-- `json.Unmarshal` of a JSON value into a `webhookPayload`. -/
def unmarshal (payload : webhookPayload) : JValue → webhookPayload × Option GoError
  | .null => (payload, none)
  | .obj kvs => decodeMembers webhookPayload.setMember payload kvs
  | v => (payload, some (.unmarshalType v.describe ""))

/-- `c.ShouldBindJSON(&payload)` (line 115): decode the first JSON value of the
body into `payload` and return the error, if any.  Decoding follows Go's
`encoding/json`, which gin uses: members are stored in the order of the body,
unknown keys are skipped, `null` stores nothing into a struct or a scalar, a
value of the wrong kind leaves the field alone and is reported after the whole
value has been gone through.  The struct carries no `binding` tag, so gin's
validation step, which follows decoding, accepts every payload. -/
def ShouldBindJSON (body : RequestBody) (payload : webhookPayload) :
    webhookPayload × Option GoError :=
  match body with
  | .malformed e => (payload, some e)
  | .json v _ => unmarshal payload v

/-! ## The declared fields -/

/-- The Go type of a declared field, as far as decoding goes: `int`, `string`,
`bool`, `[]string`, `map[string]bool`, `map[string]string`, or one of the two
nested structs. -/
inductive Kind where
  | int
  | string
  | bool
  | stringSlice
  | boolMap
  | stringMap
  | struct
  deriving DecidableEq, Repr

/-- The values a field of the given kind takes without their being of the wrong
type for it: `null`, which every kind takes, and the values of the JSON type that
goes with the Go type (number, string, boolean, array, object).  Of the numbers
an `int` takes the integer literals that fit 64 bits. -/
def Kind.accepts : Kind → JValue → Bool
  | _, .null => true
  | .int, .int n => decide (-(2 ^ 63 : Int) ≤ n ∧ n < 2 ^ 63)
  | .string, .str _ => true
  | .bool, .bool _ => true
  | .stringSlice, .arr _ => true
  | .boolMap, .obj _ => true
  | .stringMap, .obj _ => true
  | .struct, .obj _ => true
  | _, _ => false

/-- The fields of the heartbeat struct (lines 15-20 of `main.go`): JSON tag and kind. -/
def Heartbeat.fields : List (String × Kind) :=
  [("monitorID", .int), ("status", .int), ("time", .string), ("msg", .string),
   ("important", .bool), ("duration", .int)]

/-- The fields of the monitor struct (lines 23-64 of `main.go`): JSON tag and kind. -/
def Monitor.fields : List (String × Kind) :=
  [("id", .int), ("name", .string), ("description", .string), ("url", .string),
   ("method", .string), ("hostname", .string), ("port", .string), ("maxretries", .int),
   ("weight", .int), ("active", .bool), ("type", .string), ("interval", .int),
   ("retryInterval", .int), ("resendInterval", .int), ("keyword", .string),
   ("expiryNotification", .bool), ("ignoreTls", .bool), ("upsideDown", .bool),
   ("packetSize", .int), ("maxredirects", .int), ("accepted_statuscodes", .stringSlice),
   ("dns_resolve_type", .string), ("dns_resolve_server", .string),
   ("dns_last_result", .string), ("docker_container", .string), ("docker_host", .string),
   ("proxyId", .string), ("notificationIDList", .boolMap), ("tags", .stringSlice),
   ("maintenance", .bool), ("mqttTopic", .string), ("mqttSuccessMessage", .string),
   ("databaseQuery", .string), ("authMethod", .stringMap), ("grpcUrl", .string),
   ("grpcProtobuf", .string), ("grpcMethod", .string), ("grpcServiceName", .string),
   ("grpcEnableTls", .bool), ("radiusCalledStationId", .string),
   ("radiusCallingStationId", .string), ("game", .string)]

/-- The fields of `webhookPayload` itself (lines 14, 22 and 66 of `main.go`). -/
def webhookPayload.fields : List (String × Kind) :=
  [("heartbeat", .struct), ("monitor", .struct), ("msg", .string)]

/-- The member with key `k` and value `v` selects a field of the table and `v` is
not a value the field's kind accepts. -/
def rejects : List (String × Kind) → String → JValue → Bool
  | [], _, _ => false
  | (name, kind) :: fields, k, v =>
    if fieldMatch k name then !kind.accepts v else rejects fields k v

/-! ## Configuration and the handler -/

/-- `Config` of `main.go`. -/
structure Config where
  WebhookURL : String := ""
  BearerToken : String := ""
  UptimeURL : String := ""
  Prod : Bool := false
  HttpPort : Int := 0
  deriving DecidableEq, Repr

/-- `DiscordStatus` of `main.go`. -/
structure DiscordStatus where
  color : Int
  status : String
  deriving DecidableEq, Repr

/-- One element of `"embeds"` in the outbound body. -/
structure Embed where
  type_ : String
  title : String
  description : String
  color : Int
  url : String
  deriving DecidableEq, Repr

/-- The outbound body, `{"content": ..., "embeds": [...]}`. -/
structure DiscordMessage where
  content : String
  embeds : List Embed
  deriving DecidableEq, Repr

/-- One request sent through the resty client. -/
structure OutboundCall where
  method : String
  url : String
  headers : List (String × String)
  body : DiscordMessage
  deriving DecidableEq, Repr

/-- What the destination answered when the transport succeeded. -/
structure DestinationResponse where
  statusCode : Nat
  body : String
  deriving DecidableEq, Repr

/-- A `gin.H` with one entry: `{"error": <text>}`, `{"error": err.Error()}` or
`{"message": <text>}`. -/
inductive H where
  | error (text : String)
  | errorOf (err : GoError)
  | message (text : String)
  deriving DecidableEq, Repr

/-- The response written by `c.JSON(code, body)`. -/
structure Response where
  code : Nat
  body : H
  deriving DecidableEq, Repr

/-- The variables of `main` that the handler closure captures: `config` and
`err` (`nil` is `none`). -/
structure Shared where
  config : Config
  err : Option GoError
  deriving DecidableEq, Repr

/-- What one run of the handler leaves behind: the captured variables, the
response and the outbound calls it made, in order. -/
structure Outcome where
  shared : Shared
  response : Response
  calls : List OutboundCall
  deriving DecidableEq, Repr

/-- The presentation status chosen from `payload.Heartbeat.Status`
(lines 126-136 of `main.go`). -/
def discordStatus (status : Int) : DiscordStatus :=
  if status = 0 then { color := 16711680, status := "Down" }
  else { color := 65280, status := "Up" }

/-- The request built by `client.R().SetHeader(..).SetBody(..).Post(..)`. -/
def outboundCall (config : Config) (payload : webhookPayload) (ds : DiscordStatus) :
    OutboundCall :=
  { method := "POST"
    url := config.WebhookURL
    headers := [("Content-Type", "application/json")]
    body :=
      { content := ""
        embeds :=
          [{ type_ := "rich"
             title := payload.Monitor.Name ++ " is " ++ ds.status
             description := payload.Monitor.Description
             color := ds.color
             url := config.UptimeURL }] } }

/-- The closure registered for `POST /webhook` (lines 105-161).  `authHeader` is
`c.GetHeader("Authorization")`, the empty string when the header is missing.
`post` is the transport: it answers a call with the destination's response or
with an error.  Both `err = c.ShouldBindJSON(..)` and `_, err = ..Post(..)`
assign the `err` of `main`, which is why it is part of `Shared`. -/
def webhookHandler (post : OutboundCall → Except GoError DestinationResponse)
    (s : Shared) (authHeader : String) (body : RequestBody) : Outcome :=
  if authHeader ≠ "Bearer " ++ s.config.BearerToken then
    { shared := s, response := ⟨401, .error "Unauthorized"⟩, calls := [] }
  else
    let bound := ShouldBindJSON body {}
    let payload := bound.1
    match bound.2 with
    | some e =>
      { shared := { s with err := some e }, response := ⟨400, .errorOf e⟩, calls := [] }
    | none =>
      if payload.Monitor.Name = "" then
        { shared := { s with err := none }
          response := ⟨400, .error "missing monitor name"⟩
          calls := [] }
      else
        let ds := discordStatus payload.Heartbeat.Status
        let call := outboundCall s.config payload ds
        match post call with
        | .error e =>
          { shared := { s with err := some e }, response := ⟨500, .errorOf e⟩, calls := [call] }
        | .ok _ =>
          { shared := { s with err := none }
            response := ⟨200, .message "Success"⟩
            calls := [call] }

/-! ## Start-up -/

/-- `LoadConfig`: `readFile` is the result of `os.ReadFile("config.toml")`,
`tomlUnmarshal data config` the configuration `toml.Unmarshal` leaves behind and
the error it returns.  The result is the pair `(*Config, error)`. -/
def LoadConfig (readFile : Except GoError String)
    (tomlUnmarshal : String → Config → Config × Option GoError) :
    Option Config × Option GoError :=
  let config : Config := {}
  match readFile with
  | .error err => (none, some err)
  | .ok data =>
    let r := tomlUnmarshal data config
    let config := r.1
    let _err := r.2
    (some config, none)

/-- A step of `main` visible from outside. -/
inductive StartupEvent where
  | setReleaseMode
  | registerPOST (path : String)
  | run (addr : String)
  deriving DecidableEq, Repr

/-- A run of `main`: what it did, the captured variables as the handler finds
them (once the route is registered), and the panic that ended it, if any. -/
structure MainRun where
  events : List StartupEvent
  shared : Option Shared
  panicked : Option String
  deriving DecidableEq, Repr

/-- `main`.  `run addr` is the error `router.Run(addr)` returns when it returns. -/
def main (readFile : Except GoError String)
    (tomlUnmarshal : String → Config → Config × Option GoError)
    (run : String → Option GoError) : MainRun :=
  match LoadConfig readFile tomlUnmarshal with
  | (_, some _) => ⟨[], none, some "Can't load config.yml file."⟩
  | (none, none) => ⟨[], none, some "runtime error: invalid memory address or nil pointer dereference"⟩
  | (some config, none) =>
    let mode := if config.Prod then [StartupEvent.setReleaseMode] else []
    let events := mode ++ [.registerPOST "/webhook", .run (":" ++ toString config.HttpPort)]
    match run (":" ++ toString config.HttpPort) with
    | some _ => ⟨events, some ⟨config, none⟩, some "Can't start HTTP server"⟩
    | none => ⟨events, some ⟨config, none⟩, none⟩

/-- A TOML decoder that rejects what it is given and leaves the configuration as
it found it. -/
def failingUnmarshal : String → Config → Config × Option GoError :=
  fun _ config => (config, some (.msg "toml: invalid input"))

/-! ## The end-to-end scenario of the specification -/

/-- Configuration of the scenario: bearer token `secret`. -/
def scenarioConfig : Config :=
  { WebhookURL := "https://discord.example/api/webhooks/1"
    BearerToken := "secret"
    UptimeURL := "https://status.example"
    Prod := true
    HttpPort := 8080 }

/-- The body `{"heartbeat":{"status":0},"monitor":{"name":"API","description":"main api"}}`. -/
def scenarioBody : RequestBody :=
  .json (.obj
    [("heartbeat", .obj [("status", .int 0)]),
     ("monitor", .obj [("name", .str "API"), ("description", .str "main api")])]) ""

/-- A transport whose destination accepts every call. -/
def acceptingPost : OutboundCall → Except GoError DestinationResponse :=
  fun _ => .ok { statusCode := 204, body := "" }

/-- A transport whose destination answers every call with a server error. -/
def rejectingPost : OutboundCall → Except GoError DestinationResponse :=
  fun _ => .ok { statusCode := 503, body := "unavailable" }

/-- A transport that cannot reach the destination. -/
def unreachablePost : OutboundCall → Except GoError DestinationResponse :=
  fun _ => .error (.msg "dial tcp: connection refused")

/-! ## The four exits of the handler -/

theorem webhookHandler_unauthorized (post : OutboundCall → Except GoError DestinationResponse)
    (s : Shared) (authHeader : String) (body : RequestBody)
    (hauth : authHeader ≠ "Bearer " ++ s.config.BearerToken) :
    webhookHandler post s authHeader body
      = { shared := s, response := ⟨401, .error "Unauthorized"⟩, calls := [] } := by
  simp [webhookHandler, hauth]

theorem webhookHandler_bindError (post : OutboundCall → Except GoError DestinationResponse)
    (s : Shared) (authHeader : String) (body : RequestBody) (e : GoError)
    (hauth : authHeader = "Bearer " ++ s.config.BearerToken)
    (hbind : (ShouldBindJSON body {}).2 = some e) :
    webhookHandler post s authHeader body
      = { shared := { s with err := some e }, response := ⟨400, .errorOf e⟩, calls := [] } := by
  simp [webhookHandler, hauth, hbind]

theorem webhookHandler_missingName (post : OutboundCall → Except GoError DestinationResponse)
    (s : Shared) (authHeader : String) (body : RequestBody)
    (hauth : authHeader = "Bearer " ++ s.config.BearerToken)
    (hbind : (ShouldBindJSON body {}).2 = none)
    (hname : (ShouldBindJSON body {}).1.Monitor.Name = "") :
    webhookHandler post s authHeader body
      = { shared := { s with err := none }
          response := ⟨400, .error "missing monitor name"⟩
          calls := [] } := by
  simp [webhookHandler, hauth, hbind, hname]

theorem webhookHandler_forward (post : OutboundCall → Except GoError DestinationResponse)
    (s : Shared) (authHeader : String) (body : RequestBody)
    (hauth : authHeader = "Bearer " ++ s.config.BearerToken)
    (hbind : (ShouldBindJSON body {}).2 = none)
    (hname : (ShouldBindJSON body {}).1.Monitor.Name ≠ "") :
    webhookHandler post s authHeader body
      = (match post (outboundCall s.config (ShouldBindJSON body {}).1
            (discordStatus (ShouldBindJSON body {}).1.Heartbeat.Status)) with
        | .error e =>
          { shared := { s with err := some e }, response := ⟨500, .errorOf e⟩
            calls := [outboundCall s.config (ShouldBindJSON body {}).1
              (discordStatus (ShouldBindJSON body {}).1.Heartbeat.Status)] }
        | .ok _ =>
          { shared := { s with err := none }, response := ⟨200, .message "Success"⟩
            calls := [outboundCall s.config (ShouldBindJSON body {}).1
              (discordStatus (ShouldBindJSON body {}).1.Heartbeat.Status)] }) := by
  simp [webhookHandler, hauth, hbind, hname]

theorem webhookHandler_forward_calls (post : OutboundCall → Except GoError DestinationResponse)
    (s : Shared) (authHeader : String) (body : RequestBody)
    (hauth : authHeader = "Bearer " ++ s.config.BearerToken)
    (hbind : (ShouldBindJSON body {}).2 = none)
    (hname : (ShouldBindJSON body {}).1.Monitor.Name ≠ "") :
    (webhookHandler post s authHeader body).calls
      = [outboundCall s.config (ShouldBindJSON body {}).1
          (discordStatus (ShouldBindJSON body {}).1.Heartbeat.Status)] := by
  rw [webhookHandler_forward post s authHeader body hauth hbind hname]
  split <;> rfl

theorem webhookHandler_code_ne_401 (post : OutboundCall → Except GoError DestinationResponse)
    (s : Shared) (authHeader : String) (body : RequestBody)
    (hauth : authHeader = "Bearer " ++ s.config.BearerToken) :
    (webhookHandler post s authHeader body).response.code ≠ 401 := by
  cases hbind : (ShouldBindJSON body {}).2 with
  | some e => rw [webhookHandler_bindError post s authHeader body e hauth hbind]; simp
  | none =>
    by_cases hname : (ShouldBindJSON body {}).1.Monitor.Name = ""
    · rw [webhookHandler_missingName post s authHeader body hauth hbind hname]; simp
    · rw [webhookHandler_forward post s authHeader body hauth hbind hname]
      split <;> simp

/-! ## The decoder: errors do not depend on what the struct held before -/

theorem saveError_eq_none (a b : Option GoError) :
    saveError a b = none ↔ a = none ∧ b = none := by
  cases a <;> simp [saveError]

theorem decodeInt_snd (f : String) (old old' : Int) (v : JValue) :
    (decodeInt f old v).2 = (decodeInt f old' v).2 := by
  cases v <;> simp only [decodeInt]
  split_ifs <;> rfl

theorem decodeString_snd (f : String) (old old' : String) (v : JValue) :
    (decodeString f old v).2 = (decodeString f old' v).2 := by
  cases v <;> simp only [decodeString]

theorem decodeBool_snd (f : String) (old old' : Bool) (v : JValue) :
    (decodeBool f old v).2 = (decodeBool f old' v).2 := by
  cases v <;> simp only [decodeBool]

theorem decodeStringElems_snd (f : String) (vs : List JValue) (old old' : List String) :
    (decodeStringElems f old vs).2 = (decodeStringElems f old' vs).2 := by
  induction vs generalizing old old' with
  | nil => rfl
  | cons v vs ih =>
    simp only [decodeStringElems]
    rw [decodeString_snd f (old.headD "") (old'.headD "") v, ih old.tail old'.tail]

theorem decodeStringSlice_snd (f : String) (old old' : StringSlice) (v : JValue) :
    (decodeStringSlice f old v).2 = (decodeStringSlice f old' v).2 := by
  cases v with
  | arr vs =>
    cases vs with
    | nil => rfl
    | cons v vs => exact decodeStringElems_snd f _ _ _
  | _ => rfl

theorem decodeBoolMembers_snd (f : String) (kvs : List (String × JValue))
    (m m' : List (String × Bool)) :
    (decodeBoolMembers f m kvs).2 = (decodeBoolMembers f m' kvs).2 := by
  induction kvs generalizing m m' with
  | nil => rfl
  | cons kv kvs ih =>
    obtain ⟨k, v⟩ := kv
    simp only [decodeBoolMembers]
    rw [ih (mapAssign m k (decodeBool f false v).1) (mapAssign m' k (decodeBool f false v).1)]

theorem decodeBoolMap_snd (f : String) (old old' : List (String × Bool)) (v : JValue) :
    (decodeBoolMap f old v).2 = (decodeBoolMap f old' v).2 := by
  cases v <;> simp only [decodeBoolMap]
  exact decodeBoolMembers_snd f _ old old'

theorem decodeStringMembers_snd (f : String) (kvs : List (String × JValue))
    (m m' : List (String × String)) :
    (decodeStringMembers f m kvs).2 = (decodeStringMembers f m' kvs).2 := by
  induction kvs generalizing m m' with
  | nil => rfl
  | cons kv kvs ih =>
    obtain ⟨k, v⟩ := kv
    simp only [decodeStringMembers]
    rw [ih (mapAssign m k (decodeString f "" v).1) (mapAssign m' k (decodeString f "" v).1)]

theorem decodeStringMap_snd (f : String) (old old' : List (String × String)) (v : JValue) :
    (decodeStringMap f old v).2 = (decodeStringMap f old' v).2 := by
  cases v <;> simp only [decodeStringMap]
  exact decodeStringMembers_snd f _ old old'

theorem decodeMembers_snd {σ : Type} (set : σ → String → JValue → σ × Option GoError)
    (hset : ∀ s s' k v, (set s k v).2 = (set s' k v).2)
    (kvs : List (String × JValue)) (s s' : σ) :
    (decodeMembers set s kvs).2 = (decodeMembers set s' kvs).2 := by
  induction kvs generalizing s s' with
  | nil => rfl
  | cons kv kvs ih =>
    obtain ⟨k, v⟩ := kv
    simp only [decodeMembers]
    rw [hset s s' k v, ih (set s k v).1 (set s' k v).1]

theorem decodeMembers_snd_eq_none {σ : Type}
    (set : σ → String → JValue → σ × Option GoError)
    (hset : ∀ s s' k v, (set s k v).2 = (set s' k v).2) (s₀ : σ)
    (kvs : List (String × JValue)) (s : σ) :
    (decodeMembers set s kvs).2 = none ↔ ∀ kv ∈ kvs, (set s₀ kv.1 kv.2).2 = none := by
  induction kvs generalizing s with
  | nil => simp [decodeMembers]
  | cons kv kvs ih =>
    obtain ⟨k, v⟩ := kv
    simp only [decodeMembers, saveError_eq_none, List.mem_cons, forall_eq_or_imp]
    rw [ih (set s k v).1, hset s s₀ k v]

theorem decodeMembers_sublist {σ : Type} (set : σ → String → JValue → σ × Option GoError)
    (hset : ∀ s s' k v, (set s k v).2 = (set s' k v).2)
    {kvs kvs' : List (String × JValue)} (hsub : List.Sublist kvs' kvs) (s s' : σ)
    (h : (decodeMembers set s kvs).2 = none) : (decodeMembers set s' kvs').2 = none := by
  rw [decodeMembers_snd_eq_none set hset s kvs s] at h
  rw [decodeMembers_snd_eq_none set hset s kvs' s']
  exact fun kv hkv => h kv (hsub.subset hkv)

theorem ite_snd_congr {α β : Type} {c : Prop} [Decidable c] {a a' b b' : α × β}
    (h₁ : a.2 = a'.2) (h₂ : b.2 = b'.2) :
    (if c then a else b).2 = (if c then a' else b').2 := by
  split_ifs <;> assumption

theorem heartbeat_setMember_snd (h h' : Heartbeat) (k : String) (v : JValue) :
    (h.setMember k v).2 = (h'.setMember k v).2 := by
  unfold Heartbeat.setMember
  split_ifs <;>
    first
      | exact decodeInt_snd _ _ _ _
      | exact decodeString_snd _ _ _ _
      | exact decodeBool_snd _ _ _ _
      | rfl

theorem monitor_setMember_snd (m m' : Monitor) (k : String) (v : JValue) :
    (m.setMember k v).2 = (m'.setMember k v).2 := by
  unfold Monitor.setMember
  repeat' apply ite_snd_congr
  all_goals
    first
      | exact decodeInt_snd _ _ _ _
      | exact decodeString_snd _ _ _ _
      | exact decodeBool_snd _ _ _ _
      | exact decodeStringSlice_snd _ _ _ _
      | exact decodeBoolMap_snd _ _ _ _
      | exact decodeStringMap_snd _ _ _ _
      | rfl

theorem decodeHeartbeat_snd (old old' : Heartbeat) (v : JValue) :
    (decodeHeartbeat old v).2 = (decodeHeartbeat old' v).2 := by
  cases v <;> simp only [decodeHeartbeat]
  exact decodeMembers_snd _ heartbeat_setMember_snd _ old old'

theorem decodeMonitor_snd (old old' : Monitor) (v : JValue) :
    (decodeMonitor old v).2 = (decodeMonitor old' v).2 := by
  cases v <;> simp only [decodeMonitor]
  exact decodeMembers_snd _ monitor_setMember_snd _ old old'

theorem payload_setMember_snd (p p' : webhookPayload) (k : String) (v : JValue) :
    (p.setMember k v).2 = (p'.setMember k v).2 := by
  unfold webhookPayload.setMember
  split_ifs <;>
    first
      | exact decodeHeartbeat_snd _ _ _
      | exact decodeMonitor_snd _ _ _
      | exact decodeString_snd _ _ _ _
      | rfl

/-- Taking members away from a nested object never makes a member of the
top-level object fail. -/
theorem payload_setMember_obj_sublist (p p' : webhookPayload) (k : String)
    {hs hs' : List (String × JValue)} (hsub : List.Sublist hs' hs)
    (h : (p.setMember k (.obj hs)).2 = none) : (p'.setMember k (.obj hs')).2 = none := by
  unfold webhookPayload.setMember at h ⊢
  split_ifs at h ⊢
  · exact decodeMembers_sublist _ heartbeat_setMember_snd hsub _ _ h
  · exact decodeMembers_sublist _ monitor_setMember_snd hsub _ _ h
  · simp [decodeString] at h
  · rfl

/-- Decoding a JSON object succeeds exactly when each member that is present can
be stored; the members that are absent play no part. -/
theorem ShouldBindJSON_obj_eq_none (ms : List (String × JValue)) (rest : String) :
    (ShouldBindJSON (.json (.obj ms) rest) {}).2 = none
      ↔ ∀ kv ∈ ms, (webhookPayload.setMember {} kv.1 kv.2).2 = none :=
  decodeMembers_snd_eq_none _ payload_setMember_snd {} ms {}

/-! ## The decoder: a value of the wrong type is an error -/

theorem fieldMatch_foldName (k name : String) (h : fieldMatch k name = true) :
    foldName k = foldName name := by
  unfold fieldMatch at h
  simp only [Bool.or_eq_true, beq_iff_eq] at h
  rcases h with h | h
  · rw [h]
  · exact h

/-- A key selects at most one of two names that fold differently. -/
theorem fieldMatch_exclusive (k a b : String) (h : fieldMatch k a = true)
    (hne : foldName a ≠ foldName b) : ¬ fieldMatch k b = true := by
  intro hb
  exact hne ((fieldMatch_foldName k a h).symm.trans (fieldMatch_foldName k b hb))

theorem decodeInt_rejects (f : String) (old : Int) (v : JValue)
    (h : (!Kind.accepts .int v) = true) : (decodeInt f old v).2 ≠ none := by
  cases v with
  | int n =>
    by_cases hn : -(2 ^ 63 : Int) ≤ n ∧ n < 2 ^ 63
    · simp only [Kind.accepts, decide_eq_true hn] at h
      exact absurd h (by decide)
    · simp only [decodeInt, if_neg hn]
      simp
  | _ => simp_all [decodeInt, Kind.accepts]

theorem decodeString_rejects (f : String) (old : String) (v : JValue)
    (h : (!Kind.accepts .string v) = true) : (decodeString f old v).2 ≠ none := by
  cases v <;> simp_all [decodeString, Kind.accepts]

theorem decodeBool_rejects (f : String) (old : Bool) (v : JValue)
    (h : (!Kind.accepts .bool v) = true) : (decodeBool f old v).2 ≠ none := by
  cases v <;> simp_all [decodeBool, Kind.accepts]

theorem decodeStringSlice_rejects (f : String) (old : StringSlice) (v : JValue)
    (h : (!Kind.accepts .stringSlice v) = true) : (decodeStringSlice f old v).2 ≠ none := by
  cases v <;> simp_all [decodeStringSlice, Kind.accepts]

theorem decodeBoolMap_rejects (f : String) (old : List (String × Bool)) (v : JValue)
    (h : (!Kind.accepts .boolMap v) = true) : (decodeBoolMap f old v).2 ≠ none := by
  cases v <;> simp_all [decodeBoolMap, Kind.accepts]

theorem decodeStringMap_rejects (f : String) (old : List (String × String)) (v : JValue)
    (h : (!Kind.accepts .stringMap v) = true) : (decodeStringMap f old v).2 ≠ none := by
  cases v <;> simp_all [decodeStringMap, Kind.accepts]

theorem decodeHeartbeat_rejects (old : Heartbeat) (v : JValue)
    (h : (!Kind.accepts .struct v) = true) : (decodeHeartbeat old v).2 ≠ none := by
  cases v <;> simp_all [decodeHeartbeat, Kind.accepts]

theorem decodeMonitor_rejects (old : Monitor) (v : JValue)
    (h : (!Kind.accepts .struct v) = true) : (decodeMonitor old v).2 ≠ none := by
  cases v <;> simp_all [decodeMonitor, Kind.accepts]

theorem ite_rejects {α : Type} {c : Prop} [Decidable c] {a b : α × Option GoError}
    {x y : Bool} (h₁ : x = true → a.2 ≠ none) (h₂ : y = true → b.2 ≠ none) :
    (if c then x else y) = true → (if c then a else b).2 ≠ none := by
  split_ifs
  · exact h₁
  · exact h₂

theorem heartbeat_setMember_rejects (h : Heartbeat) (k : String) (v : JValue) :
    rejects Heartbeat.fields k v = true → (h.setMember k v).2 ≠ none := by
  unfold Heartbeat.setMember
  simp only [Heartbeat.fields, rejects]
  repeat' apply ite_rejects
  all_goals
    first
      | exact decodeInt_rejects _ _ _
      | exact decodeString_rejects _ _ _
      | exact decodeBool_rejects _ _ _
      | exact fun hf => absurd hf (by decide)

theorem monitor_setMember_rejects (m : Monitor) (k : String) (v : JValue) :
    rejects Monitor.fields k v = true → (m.setMember k v).2 ≠ none := by
  unfold Monitor.setMember
  simp only [Monitor.fields, rejects]
  repeat' apply ite_rejects
  all_goals
    first
      | exact decodeInt_rejects _ _ _
      | exact decodeString_rejects _ _ _
      | exact decodeBool_rejects _ _ _
      | exact decodeStringSlice_rejects _ _ _
      | exact decodeBoolMap_rejects _ _ _
      | exact decodeStringMap_rejects _ _ _
      | exact fun hf => absurd hf (by decide)

theorem payload_setMember_rejects (p : webhookPayload) (k : String) (v : JValue) :
    rejects webhookPayload.fields k v = true → (p.setMember k v).2 ≠ none := by
  unfold webhookPayload.setMember
  simp only [webhookPayload.fields, rejects]
  repeat' apply ite_rejects
  all_goals
    first
      | exact decodeHeartbeat_rejects _ _
      | exact decodeMonitor_rejects _ _
      | exact decodeString_rejects _ _ _
      | exact fun hf => absurd hf (by decide)

/-- In a table whose names fold differently from one another, a key that matches
the name of an entry selects that entry. -/
theorem rejects_of_mem (fields : List (String × Kind))
    (hpw : fields.Pairwise fun a b => foldName a.1 ≠ foldName b.1)
    (name : String) (kind : Kind) (k : String) (v : JValue)
    (hmem : (name, kind) ∈ fields) (hk : fieldMatch k name = true)
    (hv : kind.accepts v = false) : rejects fields k v = true := by
  induction fields with
  | nil => cases hmem
  | cons f fields ih =>
    obtain ⟨name', kind'⟩ := f
    rw [List.pairwise_cons] at hpw
    simp only [rejects]
    rcases List.mem_cons.mp hmem with heq | hmem'
    · cases heq
      rw [if_pos hk, hv]
      rfl
    · rw [if_neg (fieldMatch_exclusive k name name' hk (fun h => hpw.1 _ hmem' h.symm))]
      exact ih hpw.2 hmem'

theorem heartbeat_fields_pairwise :
    Heartbeat.fields.Pairwise fun a b => foldName a.1 ≠ foldName b.1 := by
  decide

theorem monitor_fields_pairwise :
    Monitor.fields.Pairwise fun a b => foldName a.1 ≠ foldName b.1 := by
  decide

theorem payload_fields_pairwise :
    webhookPayload.fields.Pairwise fun a b => foldName a.1 ≠ foldName b.1 := by
  decide

/-- A member of the body that selects a field of `webhookPayload` and holds a value
the field does not accept makes decoding fail. -/
theorem ShouldBindJSON_member_rejected (ms : List (String × JValue)) (rest : String)
    (k : String) (v : JValue) (name : String) (kind : Kind)
    (hmem : (k, v) ∈ ms) (hf : (name, kind) ∈ webhookPayload.fields)
    (hk : fieldMatch k name = true) (hv : kind.accepts v = false) :
    (ShouldBindJSON (.json (.obj ms) rest) {}).2 ≠ none := by
  intro h
  rw [ShouldBindJSON_obj_eq_none] at h
  exact payload_setMember_rejects {} k v
    (rejects_of_mem _ payload_fields_pairwise name kind k v hf hk hv) (h (k, v) hmem)

/-- A member of a heartbeat object of the body that selects a field of the
heartbeat struct and holds a value the field does not accept makes decoding
fail. -/
theorem ShouldBindJSON_heartbeat_member_rejected (ms : List (String × JValue))
    (rest : String) (k : String) (hs : List (String × JValue)) (k' : String) (v : JValue)
    (name : String) (kind : Kind)
    (hmem : (k, JValue.obj hs) ∈ ms) (hk : fieldMatch k "heartbeat" = true)
    (hmem' : (k', v) ∈ hs) (hf : (name, kind) ∈ Heartbeat.fields)
    (hk' : fieldMatch k' name = true) (hv : kind.accepts v = false) :
    (ShouldBindJSON (.json (.obj ms) rest) {}).2 ≠ none := by
  intro h
  rw [ShouldBindJSON_obj_eq_none] at h
  have h₁ : (webhookPayload.setMember {} k (.obj hs)).2 = none := h _ hmem
  unfold webhookPayload.setMember at h₁
  rw [if_pos hk] at h₁
  simp only [decodeHeartbeat] at h₁
  rw [decodeMembers_snd_eq_none _ heartbeat_setMember_snd {}] at h₁
  exact heartbeat_setMember_rejects {} k' v
    (rejects_of_mem _ heartbeat_fields_pairwise name kind k' v hf hk' hv) (h₁ (k', v) hmem')

/-- A member of a monitor object of the body that selects a field of the monitor
struct and holds a value the field does not accept makes decoding fail. -/
theorem ShouldBindJSON_monitor_member_rejected (ms : List (String × JValue))
    (rest : String) (k : String) (hs : List (String × JValue)) (k' : String) (v : JValue)
    (name : String) (kind : Kind)
    (hmem : (k, JValue.obj hs) ∈ ms) (hk : fieldMatch k "monitor" = true)
    (hmem' : (k', v) ∈ hs) (hf : (name, kind) ∈ Monitor.fields)
    (hk' : fieldMatch k' name = true) (hv : kind.accepts v = false) :
    (ShouldBindJSON (.json (.obj ms) rest) {}).2 ≠ none := by
  intro h
  rw [ShouldBindJSON_obj_eq_none] at h
  have h₁ : (webhookPayload.setMember {} k (.obj hs)).2 = none := h _ hmem
  unfold webhookPayload.setMember at h₁
  rw [if_neg (fieldMatch_exclusive k "monitor" "heartbeat" hk (by decide)), if_pos hk] at h₁
  simp only [decodeMonitor] at h₁
  rw [decodeMembers_snd_eq_none _ monitor_setMember_snd {}] at h₁
  exact monitor_setMember_rejects {} k' v
    (rejects_of_mem _ monitor_fields_pairwise name kind k' v hf hk' hv) (h₁ (k', v) hmem')

/-- A first JSON value that is neither `null` nor an object makes decoding fail. -/
theorem ShouldBindJSON_value_rejected (v : JValue) (rest : String)
    (hnull : v ≠ .null) (hobj : ∀ ms, v ≠ .obj ms) :
    (ShouldBindJSON (.json v rest) {}).2 ≠ none := by
  cases v <;> simp_all [ShouldBindJSON, unmarshal]

/-! ## The decoder: fields no member selects keep their value -/

theorem decodeMembers_invariant {σ : Type} (set : σ → String → JValue → σ × Option GoError)
    (P : σ → Prop) (Q : String → JValue → Prop)
    (hstep : ∀ s k v, P s → Q k v → P (set s k v).1)
    (kvs : List (String × JValue)) (s : σ) (hs : P s)
    (hQ : ∀ k v, (k, v) ∈ kvs → Q k v) : P (decodeMembers set s kvs).1 := by
  induction kvs generalizing s with
  | nil => exact hs
  | cons kv kvs ih =>
    obtain ⟨k, v⟩ := kv
    simp only [decodeMembers]
    exact ih _ (hstep s k v hs (hQ k v (List.mem_cons_self _ _)))
      (fun k' v' hmem => hQ k' v' (List.mem_cons_of_mem _ hmem))

theorem heartbeat_setMember_status (h : Heartbeat) (k : String) (v : JValue)
    (hk : fieldMatch k "status" = false) : (h.setMember k v).1.Status = h.Status := by
  unfold Heartbeat.setMember
  split_ifs with h1 h2 <;> first | rfl | (rw [hk] at h2; exact absurd h2 (by decide))

theorem payload_setMember_status (p : webhookPayload) (k : String) (v : JValue)
    (hv : fieldMatch k "heartbeat" = true → ∀ hs, v = .obj hs →
      ∀ k' v', (k', v') ∈ hs → fieldMatch k' "status" = false)
    (n : Int) (hp : p.Heartbeat.Status = n) : (p.setMember k v).1.Heartbeat.Status = n := by
  unfold webhookPayload.setMember
  split_ifs with h1
  · cases v with
    | obj hs =>
      simp only [decodeHeartbeat]
      exact decodeMembers_invariant Heartbeat.setMember (fun h => h.Status = n)
        (fun k' _ => fieldMatch k' "status" = false)
        (fun h k' v' hh hk => (heartbeat_setMember_status h k' v' hk).trans hh)
        hs p.Heartbeat hp (hv h1 hs rfl)
    | _ => exact hp
  · exact hp
  · exact hp
  · exact hp

/-- A body in which no member selects `heartbeat.status` decodes to status 0. -/
theorem ShouldBindJSON_status_zero (ms : List (String × JValue)) (rest : String)
    (hstatus : ∀ k v, (k, v) ∈ ms → fieldMatch k "heartbeat" = true → ∀ hs, v = .obj hs →
      ∀ k' v', (k', v') ∈ hs → fieldMatch k' "status" = false) :
    (ShouldBindJSON (.json (.obj ms) rest) {}).1.Heartbeat.Status = 0 :=
  decodeMembers_invariant webhookPayload.setMember (fun p => p.Heartbeat.Status = 0)
    (fun k v => fieldMatch k "heartbeat" = true → ∀ hs, v = .obj hs →
      ∀ k' v', (k', v') ∈ hs → fieldMatch k' "status" = false)
    (fun p k v hp hv => payload_setMember_status p k v hv 0 hp)
    ms {} rfl hstatus

/-! ## The decoder: a status member of the body is stored -/

theorem decodeMembers_append_fst {σ : Type}
    (set : σ → String → JValue → σ × Option GoError) (a b : List (String × JValue)) (s : σ) :
    (decodeMembers set s (a ++ b)).1 = (decodeMembers set (decodeMembers set s a).1 b).1 := by
  induction a generalizing s with
  | nil => rfl
  | cons kv a ih =>
    obtain ⟨k, v⟩ := kv
    simp only [List.cons_append, decodeMembers]
    exact ih _

/-- A member whose key selects `status` is stored by `decodeInt` into
`Heartbeat.Status`: no earlier field of the struct takes it. -/
theorem heartbeat_setMember_status_key (h : Heartbeat) (k : String) (v : JValue)
    (hk : fieldMatch k "status" = true) :
    h.setMember k v
      = ({ h with Status := (decodeInt "heartbeat.status" h.Status v).1 },
          (decodeInt "heartbeat.status" h.Status v).2) := by
  unfold Heartbeat.setMember
  rw [if_neg (fieldMatch_exclusive k "status" "monitorID" hk (by decide)), if_pos hk]

theorem decodeInt_int_stored (f : String) (old old' : Int) (n : Int)
    (h : (decodeInt f old (.int n)).2 = none) : (decodeInt f old' (.int n)).1 = n := by
  simp only [decodeInt] at h ⊢
  split_ifs at h ⊢
  rfl

/-- In a heartbeat object that decodes, the last member selecting `status`, when
it holds the integer `n`, makes `Heartbeat.Status` equal to `n`. -/
theorem heartbeat_status_stored (h : Heartbeat) (hb ha : List (String × JValue))
    (k : String) (n : Int) (hk : fieldMatch k "status" = true)
    (hlast : ∀ k₁ v₁, (k₁, v₁) ∈ ha → fieldMatch k₁ "status" = false)
    (herr : (decodeMembers Heartbeat.setMember h (hb ++ (k, .int n) :: ha)).2 = none) :
    (decodeMembers Heartbeat.setMember h (hb ++ (k, .int n) :: ha)).1.Status = n := by
  rw [decodeMembers_snd_eq_none _ heartbeat_setMember_snd h] at herr
  have hmem : (k, JValue.int n) ∈ hb ++ (k, JValue.int n) :: ha := by simp
  have hk_err : (Heartbeat.setMember h k (.int n)).2 = none := herr _ hmem
  rw [heartbeat_setMember_status_key h k _ hk] at hk_err
  rw [decodeMembers_append_fst]
  simp only [decodeMembers]
  refine decodeMembers_invariant Heartbeat.setMember (fun h' => h'.Status = n)
    (fun k₁ _ => fieldMatch k₁ "status" = false)
    (fun h' k₁ v₁ hh hk₁ => (heartbeat_setMember_status h' k₁ v₁ hk₁).trans hh)
    ha _ ?_ hlast
  rw [heartbeat_setMember_status_key _ k _ hk]
  exact decodeInt_int_stored _ _ _ n hk_err

/-- In a body that decodes, the last member selecting `heartbeat.status`, when it
holds the integer `n`, makes the decoded status equal to `n`. -/
theorem ShouldBindJSON_status_stored (before after hb ha : List (String × JValue))
    (k k' : String) (n : Int) (rest : String)
    (hk : fieldMatch k "heartbeat" = true) (hk' : fieldMatch k' "status" = true)
    (hlast : ∀ k₁ v₁, (k₁, v₁) ∈ ha → fieldMatch k₁ "status" = false)
    (hafter : ∀ k₁ v₁, (k₁, v₁) ∈ after → fieldMatch k₁ "heartbeat" = true →
      ∀ hs₁, v₁ = .obj hs₁ → ∀ k₂ v₂, (k₂, v₂) ∈ hs₁ → fieldMatch k₂ "status" = false)
    (herr : (ShouldBindJSON
      (.json (.obj (before ++ (k, .obj (hb ++ (k', .int n) :: ha)) :: after)) rest) {}).2
        = none) :
    (ShouldBindJSON
      (.json (.obj (before ++ (k, .obj (hb ++ (k', .int n) :: ha)) :: after)) rest)
        {}).1.Heartbeat.Status = n := by
  rw [ShouldBindJSON_obj_eq_none] at herr
  have hmem : (k, JValue.obj (hb ++ (k', .int n) :: ha))
      ∈ before ++ (k, JValue.obj (hb ++ (k', .int n) :: ha)) :: after := by simp
  have hk_err : (webhookPayload.setMember {} k (.obj (hb ++ (k', .int n) :: ha))).2 = none :=
    herr _ hmem
  unfold webhookPayload.setMember at hk_err
  rw [if_pos hk] at hk_err
  simp only [decodeHeartbeat] at hk_err
  show (decodeMembers webhookPayload.setMember {}
    (before ++ (k, .obj (hb ++ (k', .int n) :: ha)) :: after)).1.Heartbeat.Status = n
  rw [decodeMembers_append_fst]
  simp only [decodeMembers]
  refine decodeMembers_invariant webhookPayload.setMember (fun p => p.Heartbeat.Status = n)
    (fun k₁ v₁ => fieldMatch k₁ "heartbeat" = true → ∀ hs₁, v₁ = .obj hs₁ →
      ∀ k₂ v₂, (k₂, v₂) ∈ hs₁ → fieldMatch k₂ "status" = false)
    (fun p k₁ v₁ hp hv => payload_setMember_status p k₁ v₁ hv n hp)
    after _ ?_ hafter
  unfold webhookPayload.setMember
  rw [if_pos hk]
  simp only [decodeHeartbeat]
  refine heartbeat_status_stored _ hb ha k' n hk' hlast ?_
  rw [decodeMembers_snd _ heartbeat_setMember_snd _ _ {}]
  exact hk_err

/-! ## The decoder: `null` is never an error -/

theorem ite_snd_eq_none {α β : Type} {c : Prop} [Decidable c] {a b : α × Option β}
    (h₁ : a.2 = none) (h₂ : b.2 = none) : (if c then a else b).2 = none := by
  split_ifs <;> assumption

theorem heartbeat_setMember_null (h : Heartbeat) (k : String) :
    (h.setMember k .null).2 = none := by
  unfold Heartbeat.setMember
  repeat' apply ite_snd_eq_none
  all_goals rfl

theorem monitor_setMember_null (m : Monitor) (k : String) :
    (m.setMember k .null).2 = none := by
  unfold Monitor.setMember
  repeat' apply ite_snd_eq_none
  all_goals rfl

theorem payload_setMember_null (p : webhookPayload) (k : String) :
    (p.setMember k .null).2 = none := by
  unfold webhookPayload.setMember
  repeat' apply ite_snd_eq_none
  all_goals rfl

/-! ## Authentication -/

/-- C1: the response is 401 with body `{"error": "Unauthorized"}` exactly when the
Authorization header differs from `"Bearer " ++ token`; in that case the outcome
is the same for every request body and every transport, and no outbound call is
made. -/
theorem webhook_unauthorized_iff (post : OutboundCall → Except GoError DestinationResponse)
    (s : Shared) (authHeader : String) (body : RequestBody) :
    ((webhookHandler post s authHeader body).response = ⟨401, .error "Unauthorized"⟩
        ↔ authHeader ≠ "Bearer " ++ s.config.BearerToken)
    ∧ (authHeader ≠ "Bearer " ++ s.config.BearerToken →
        (webhookHandler post s authHeader body).calls = []
        ∧ ∀ (post' : OutboundCall → Except GoError DestinationResponse) (body' : RequestBody),
            (webhookHandler post' s authHeader body').response
              = (webhookHandler post s authHeader body).response
            ∧ (webhookHandler post' s authHeader body').calls = []) := by
  refine ⟨⟨fun h hauth => ?_, fun hauth => ?_⟩, fun hauth => ⟨?_, fun post' body' => ⟨?_, ?_⟩⟩⟩
  · exact webhookHandler_code_ne_401 post s authHeader body hauth (by rw [h])
  · rw [webhookHandler_unauthorized post s authHeader body hauth]
  · rw [webhookHandler_unauthorized post s authHeader body hauth]
  · rw [webhookHandler_unauthorized post s authHeader body hauth,
      webhookHandler_unauthorized post' s authHeader body' hauth]
  · rw [webhookHandler_unauthorized post' s authHeader body' hauth]

/-! ## Status mapping -/

/-- C2: for a request that passes authentication, decoding and the name check, the
presentation status is (16711680, "Down") when the heartbeat status is 0 and
(65280, "Up") for every other integer; there is no third pair; the single embed
sent carries that color and a title ending in "is Down", respectively "is Up".
The heartbeat status is the one the request carries: when the last member of the
body that selects `heartbeat.status` holds the integer `n`, the decoded status is
`n`, and the embed is red and titled `name ++ " is Down"` for `n = 0`, green and
titled `name ++ " is Up"` for every other `n`. -/
theorem webhook_status_mapping (post : OutboundCall → Except GoError DestinationResponse)
    (s : Shared) (authHeader : String) (body : RequestBody)
    (hauth : authHeader = "Bearer " ++ s.config.BearerToken)
    (hbind : (ShouldBindJSON body {}).2 = none)
    (hname : (ShouldBindJSON body {}).1.Monitor.Name ≠ "") :
    (∀ n : Int,
        (n = 0 → discordStatus n = { color := 16711680, status := "Down" })
        ∧ (n ≠ 0 → discordStatus n = { color := 65280, status := "Up" })
        ∧ (discordStatus n = { color := 16711680, status := "Down" }
            ∨ discordStatus n = { color := 65280, status := "Up" }))
    ∧ (∃ c e, (webhookHandler post s authHeader body).calls = [c] ∧ c.body.embeds = [e]
        ∧ ((ShouldBindJSON body {}).1.Heartbeat.Status = 0 →
            e.color = 16711680 ∧ "is Down".data <:+ e.title.data)
        ∧ ((ShouldBindJSON body {}).1.Heartbeat.Status ≠ 0 →
            e.color = 65280 ∧ "is Up".data <:+ e.title.data))
    ∧ (∀ (before after hb ha : List (String × JValue)) (k k' : String) (n : Int)
        (rest : String),
        body = .json (.obj (before ++ (k, .obj (hb ++ (k', .int n) :: ha)) :: after)) rest →
        fieldMatch k "heartbeat" = true → fieldMatch k' "status" = true →
        (∀ k₁ v₁, (k₁, v₁) ∈ ha → fieldMatch k₁ "status" = false) →
        (∀ k₁ v₁, (k₁, v₁) ∈ after → fieldMatch k₁ "heartbeat" = true →
          ∀ hs₁, v₁ = .obj hs₁ → ∀ k₂ v₂, (k₂, v₂) ∈ hs₁ → fieldMatch k₂ "status" = false) →
        (ShouldBindJSON body {}).1.Heartbeat.Status = n
        ∧ ∃ c e, (webhookHandler post s authHeader body).calls = [c] ∧ c.body.embeds = [e]
            ∧ (n = 0 → e.color = 16711680
                ∧ e.title = (ShouldBindJSON body {}).1.Monitor.Name ++ " is Down")
            ∧ (n ≠ 0 → e.color = 65280
                ∧ e.title = (ShouldBindJSON body {}).1.Monitor.Name ++ " is Up")) := by
  refine ⟨fun n => ?_, ⟨_, _,
    webhookHandler_forward_calls post s authHeader body hauth hbind hname, rfl, ?_, ?_⟩, ?_⟩
  · by_cases h0 : n = 0 <;> simp [discordStatus, h0]
  · intro h0
    refine ⟨by simp [outboundCall, discordStatus, h0], ?_⟩
    refine ⟨((ShouldBindJSON body {}).1.Monitor.Name ++ " ").data, ?_⟩
    simp [outboundCall, discordStatus, h0]
  · intro h0
    refine ⟨by simp [outboundCall, discordStatus, h0], ?_⟩
    refine ⟨((ShouldBindJSON body {}).1.Monitor.Name ++ " ").data, ?_⟩
    simp [outboundCall, discordStatus, h0]
  · intro before after hb ha k k' n rest hbody hk hk' hlast hafter
    have hst : (ShouldBindJSON body {}).1.Heartbeat.Status = n := by
      subst hbody
      exact ShouldBindJSON_status_stored before after hb ha k k' n rest hk hk' hlast hafter
        hbind
    refine ⟨hst, _, _,
      webhookHandler_forward_calls post s authHeader body hauth hbind hname, rfl, ?_, ?_⟩
    · intro h0
      rw [hst]
      refine ⟨by simp [outboundCall, discordStatus, h0], ?_⟩
      simp only [outboundCall, discordStatus, if_pos h0, String.append_assoc]
      rfl
    · intro h0
      rw [hst]
      refine ⟨by simp [outboundCall, discordStatus, h0], ?_⟩
      simp only [outboundCall, discordStatus, if_neg h0, String.append_assoc]
      rfl

/-- C2 at three requests: status 1 and status 9223372036854775807 give a green embed
titled "API is Up", status 0 (the scenario) a red one whose title ends in
"is Down". -/
theorem webhook_status_mapping_witness :
    (∃ c e, (webhookHandler acceptingPost ⟨scenarioConfig, none⟩ "Bearer secret"
          (.json (.obj [("heartbeat", .obj [("status", .int 1)]),
                        ("monitor", .obj [("name", .str "API")])]) "")).calls = [c]
      ∧ c.body.embeds = [e] ∧ e.color = 65280 ∧ e.title = "API is Up")
    ∧ (∃ c e, (webhookHandler acceptingPost ⟨scenarioConfig, none⟩ "Bearer secret"
          (.json (.obj [("heartbeat", .obj [("status", .int 9223372036854775807)]),
                        ("monitor", .obj [("name", .str "API")])]) "")).calls = [c]
      ∧ c.body.embeds = [e] ∧ e.color = 65280 ∧ "is Up".data <:+ e.title.data)
    ∧ (∃ c e, (webhookHandler acceptingPost ⟨scenarioConfig, none⟩ "Bearer secret"
          scenarioBody).calls = [c]
      ∧ c.body.embeds = [e] ∧ e.color = 16711680 ∧ "is Down".data <:+ e.title.data) := by
  refine ⟨?_, ?_, ?_⟩
  · obtain ⟨_, c, e, hc, he, _, hup⟩ :=
      (webhook_status_mapping acceptingPost ⟨scenarioConfig, none⟩ "Bearer secret"
        (.json (.obj [("heartbeat", .obj [("status", .int 1)]),
                      ("monitor", .obj [("name", .str "API")])]) "")
        (by decide) (by decide) (by decide)).2.2
        [] [("monitor", .obj [("name", .str "API")])] [] [] "heartbeat" "status" 1 "" rfl
        (by decide) (by decide)
        (fun _ _ hmem => absurd hmem (List.not_mem_nil _))
        (by
          intro k₁ v₁ hmem hk₁
          simp only [List.mem_singleton, Prod.mk.injEq] at hmem
          obtain ⟨rfl, rfl⟩ := hmem
          exact absurd hk₁ (by decide))
    exact ⟨c, e, hc, he, (hup (by decide)).1, (hup (by decide)).2⟩
  · obtain ⟨c, e, hc, he, _, hup⟩ :=
      (webhook_status_mapping acceptingPost ⟨scenarioConfig, none⟩ "Bearer secret"
        (.json (.obj [("heartbeat", .obj [("status", .int 9223372036854775807)]),
                      ("monitor", .obj [("name", .str "API")])]) "")
        (by decide) (by decide) (by decide)).2.1
    exact ⟨c, e, hc, he, hup (by decide)⟩
  · obtain ⟨c, e, hc, he, hdown, _⟩ :=
      (webhook_status_mapping acceptingPost ⟨scenarioConfig, none⟩ "Bearer secret" scenarioBody
        (by decide) (by decide) (by decide)).2.1
    exact ⟨c, e, hc, he, hdown (by decide)⟩

/-! ## Validation of the monitor name -/

/-- C3: an authenticated request whose body decodes but whose monitor name is
empty is answered 400 `{"error": "missing monitor name"}` and no outbound call is
made, whatever the other fields and the transport are. -/
theorem webhook_missing_monitor_name
    (post : OutboundCall → Except GoError DestinationResponse)
    (s : Shared) (authHeader : String) (body : RequestBody)
    (hauth : authHeader = "Bearer " ++ s.config.BearerToken)
    (hbind : (ShouldBindJSON body {}).2 = none)
    (hname : (ShouldBindJSON body {}).1.Monitor.Name = "") :
    (webhookHandler post s authHeader body).response = ⟨400, .error "missing monitor name"⟩
    ∧ (webhookHandler post s authHeader body).calls = [] := by
  rw [webhookHandler_missingName post s authHeader body hauth hbind hname]
  exact ⟨rfl, rfl⟩

/-- C3 at the body `{"heartbeat":{"status":1},"monitor":{"name":""}}`. -/
theorem webhook_missing_monitor_name_witness :
    (webhookHandler acceptingPost ⟨scenarioConfig, none⟩ "Bearer secret"
        (.json (.obj [("heartbeat", .obj [("status", .int 1)]),
                      ("monitor", .obj [("name", .str "")])]) "")).response
      = ⟨400, .error "missing monitor name"⟩
    ∧ (webhookHandler acceptingPost ⟨scenarioConfig, none⟩ "Bearer secret"
        (.json (.obj [("heartbeat", .obj [("status", .int 1)]),
                      ("monitor", .obj [("name", .str "")])]) "")).calls = [] :=
  webhook_missing_monitor_name acceptingPost ⟨scenarioConfig, none⟩ "Bearer secret" _
    (by decide) (by decide) (by decide)

/-! ## The outbound call -/

/-- C4: a request that passes authentication, decoding and the name check makes
exactly one outbound call: a POST to the configured webhook URL with header
`Content-Type: application/json`, content `""` and one embed of type "rich" whose
title is `name ++ " is " ++ label`, whose description is the monitor description,
whose color is the mapped color and whose url is the configured status page. -/
theorem webhook_outbound_call (post : OutboundCall → Except GoError DestinationResponse)
    (s : Shared) (authHeader : String) (body : RequestBody)
    (hauth : authHeader = "Bearer " ++ s.config.BearerToken)
    (hbind : (ShouldBindJSON body {}).2 = none)
    (hname : (ShouldBindJSON body {}).1.Monitor.Name ≠ "") :
    (webhookHandler post s authHeader body).calls
      = [{ method := "POST"
           url := s.config.WebhookURL
           headers := [("Content-Type", "application/json")]
           body :=
            { content := ""
              embeds :=
                [{ type_ := "rich"
                   title := (ShouldBindJSON body {}).1.Monitor.Name ++ " is "
                     ++ (discordStatus (ShouldBindJSON body {}).1.Heartbeat.Status).status
                   description := (ShouldBindJSON body {}).1.Monitor.Description
                   color := (discordStatus (ShouldBindJSON body {}).1.Heartbeat.Status).color
                   url := s.config.UptimeURL }] } }] := by
  rw [webhookHandler_forward_calls post s authHeader body hauth hbind hname]
  rfl

/-- C4 at the scenario of the specification (token "secret", heartbeat status 0,
monitor "API" described as "main api"): one call, titled "API is Down", colored
16711680. -/
theorem webhook_outbound_call_witness :
    (webhookHandler acceptingPost ⟨scenarioConfig, none⟩ "Bearer secret" scenarioBody).calls
      = [{ method := "POST"
           url := "https://discord.example/api/webhooks/1"
           headers := [("Content-Type", "application/json")]
           body :=
            { content := ""
              embeds :=
                [{ type_ := "rich"
                   title := "API is Down"
                   description := "main api"
                   color := 16711680
                   url := "https://status.example" }] } }] := by
  rw [webhook_outbound_call acceptingPost ⟨scenarioConfig, none⟩ "Bearer secret" scenarioBody
    (by decide) (by decide) (by decide)]
  decide

/-! ## Translating the transport outcome -/

/-- C5: for a request that passes authentication, decoding and the name check, a
transport error `e` gives 500 `{"error": e.Error()}`, and the absence of a
transport error gives 200 `{"message": "Success"}` whatever status code and body
the destination answered with. -/
theorem webhook_response_translation
    (post : OutboundCall → Except GoError DestinationResponse)
    (s : Shared) (authHeader : String) (body : RequestBody)
    (hauth : authHeader = "Bearer " ++ s.config.BearerToken)
    (hbind : (ShouldBindJSON body {}).2 = none)
    (hname : (ShouldBindJSON body {}).1.Monitor.Name ≠ "") :
    (∀ e, post (outboundCall s.config (ShouldBindJSON body {}).1
          (discordStatus (ShouldBindJSON body {}).1.Heartbeat.Status)) = .error e →
        (webhookHandler post s authHeader body).response = ⟨500, .errorOf e⟩)
    ∧ (∀ r, post (outboundCall s.config (ShouldBindJSON body {}).1
          (discordStatus (ShouldBindJSON body {}).1.Heartbeat.Status)) = .ok r →
        (webhookHandler post s authHeader body).response = ⟨200, .message "Success"⟩) := by
  constructor
  · intro e he
    rw [webhookHandler_forward post s authHeader body hauth hbind hname, he]
  · intro r hr
    rw [webhookHandler_forward post s authHeader body hauth hbind hname, hr]

/-- C5 at the scenario: an unreachable destination gives 500 with the transport
error, a destination answering 503 gives 200. -/
theorem webhook_response_translation_witness :
    (webhookHandler unreachablePost ⟨scenarioConfig, none⟩ "Bearer secret" scenarioBody).response
      = ⟨500, .errorOf (.msg "dial tcp: connection refused")⟩
    ∧ (webhookHandler rejectingPost ⟨scenarioConfig, none⟩ "Bearer secret" scenarioBody).response
      = ⟨200, .message "Success"⟩ :=
  ⟨(webhook_response_translation unreachablePost ⟨scenarioConfig, none⟩ "Bearer secret"
      scenarioBody (by decide) (by decide) (by decide)).1 _ rfl,
   (webhook_response_translation rejectingPost ⟨scenarioConfig, none⟩ "Bearer secret"
      scenarioBody (by decide) (by decide) (by decide)).2 _ rfl⟩

/-! ## The captured variable `err` -/

/-- C8: evaluation at an authenticated request with a malformed body, entered
with `err = nil`: the handler returns with the captured `err` holding the decode
error, so the variables shared between requests are not left unchanged. -/
theorem webhook_handler_overwrites_captured_err :
    (webhookHandler acceptingPost ⟨scenarioConfig, none⟩ "Bearer secret"
        (.malformed (.msg "unexpected EOF"))).shared
      = ⟨scenarioConfig, some (.msg "unexpected EOF")⟩
    ∧ (webhookHandler acceptingPost ⟨scenarioConfig, none⟩ "Bearer secret"
        (.malformed (.msg "unexpected EOF"))).shared ≠ ⟨scenarioConfig, none⟩ := by
  decide

/-- C9: the response and the outbound calls do not depend on the value the
captured `err` has on entry. -/
theorem webhook_independent_of_captured_err
    (post : OutboundCall → Except GoError DestinationResponse)
    (config : Config) (authHeader : String) (body : RequestBody)
    (err₁ err₂ : Option GoError) :
    (webhookHandler post ⟨config, err₁⟩ authHeader body).response
      = (webhookHandler post ⟨config, err₂⟩ authHeader body).response
    ∧ (webhookHandler post ⟨config, err₁⟩ authHeader body).calls
      = (webhookHandler post ⟨config, err₂⟩ authHeader body).calls := by
  by_cases hauth : authHeader = "Bearer " ++ config.BearerToken
  · cases hbind : (ShouldBindJSON body {}).2 with
    | some e =>
      rw [webhookHandler_bindError post ⟨config, err₁⟩ authHeader body e hauth hbind,
        webhookHandler_bindError post ⟨config, err₂⟩ authHeader body e hauth hbind]
      exact ⟨rfl, rfl⟩
    | none =>
      by_cases hname : (ShouldBindJSON body {}).1.Monitor.Name = ""
      · rw [webhookHandler_missingName post ⟨config, err₁⟩ authHeader body hauth hbind hname,
          webhookHandler_missingName post ⟨config, err₂⟩ authHeader body hauth hbind hname]
        exact ⟨rfl, rfl⟩
      · rw [webhookHandler_forward post ⟨config, err₁⟩ authHeader body hauth hbind hname,
          webhookHandler_forward post ⟨config, err₂⟩ authHeader body hauth hbind hname]
        dsimp only
        split <;> exact ⟨rfl, rfl⟩
  · rw [webhookHandler_unauthorized post ⟨config, err₁⟩ authHeader body hauth,
      webhookHandler_unauthorized post ⟨config, err₂⟩ authHeader body hauth]
    exact ⟨rfl, rfl⟩

/-! ## Start-up -/

/-- C7: when `config.toml` cannot be read, `LoadConfig` returns the error and
`main` panics before anything is registered; when it is read, `LoadConfig`
returns a nil error whatever `toml.Unmarshal` reports, and `main` goes on to
register the route and start the server.  So it is for a file holding
`webhook_url = ` that the TOML decoder rejects: nil error, no panic, the route
registered and the server started on the zero configuration. -/
theorem LoadConfig_ignores_unmarshal_error (data : String)
    (tomlUnmarshal : String → Config → Config × Option GoError)
    (run : String → Option GoError) :
    (∀ e, LoadConfig (.error e) tomlUnmarshal = (none, some e)
        ∧ main (.error e) tomlUnmarshal run = ⟨[], none, some "Can't load config.yml file."⟩)
    ∧ LoadConfig (.ok data) tomlUnmarshal = (some (tomlUnmarshal data {}).1, none)
    ∧ StartupEvent.registerPOST "/webhook" ∈ (main (.ok data) tomlUnmarshal run).events
    ∧ (main (.ok data) tomlUnmarshal run).panicked ≠ some "Can't load config.yml file."
    ∧ LoadConfig (.ok "webhook_url = ") failingUnmarshal = (some {}, none)
    ∧ main (.ok "webhook_url = ") failingUnmarshal (fun _ => none)
        = ⟨[.registerPOST "/webhook", .run ":0"], some ⟨{}, none⟩, none⟩ := by
  refine ⟨fun e => ⟨rfl, rfl⟩, rfl, ?_, ?_, rfl, by decide⟩
  · simp only [main, LoadConfig]
    split <;> simp
  · simp only [main, LoadConfig]
    split <;> simp

/-! ## Decode failures -/

/-- C6, as stated, fails at two authenticated requests that are answered 200 and
forwarded: the body `{"heartbeat":{"status":null},"monitor":{"name":"API"}}`, whose
declared `int` field holds a value that is not a number, and the body
`{"monitor":{"name":"API"}}` followed by text that is not JSON. -/
theorem webhook_decode_lenient_counterexample :
    ((webhookHandler acceptingPost ⟨scenarioConfig, none⟩ "Bearer secret"
        (.json (.obj [("heartbeat", .obj [("status", .null)]),
                      ("monitor", .obj [("name", .str "API")])]) "")).response
      = ⟨200, .message "Success"⟩
    ∧ (webhookHandler acceptingPost ⟨scenarioConfig, none⟩ "Bearer secret"
        (.json (.obj [("heartbeat", .obj [("status", .null)]),
                      ("monitor", .obj [("name", .str "API")])]) "")).calls.length = 1)
    ∧ ((webhookHandler acceptingPost ⟨scenarioConfig, none⟩ "Bearer secret"
        (.json (.obj [("monitor", .obj [("name", .str "API")])]) " this is not json")).response
      = ⟨200, .message "Success"⟩
    ∧ (webhookHandler acceptingPost ⟨scenarioConfig, none⟩ "Bearer secret"
        (.json (.obj [("monitor", .obj [("name", .str "API")])])
          " this is not json")).calls.length = 1) := by
  decide

/-- C6, amended: an authenticated request whose body fails to decode, with error
`e`, is answered 400 `{"error": e.Error()}` and makes no outbound call.  The body
fails to decode when its first JSON value cannot be scanned, when that value is
neither `null` nor an object, and when a member that selects a declared field, of
`webhookPayload`, of the heartbeat struct or of the monitor struct, holds a value
the field does not accept: one that is not `null` and not of the field's JSON
type.  The text after the first JSON value is not read, and `null` in a member is
never an error.  Absent fields never cause a failure: the empty object decodes,
and taking members away from a body that decodes, at the top level or inside a
nested object, leaves a body that decodes. -/
theorem webhook_decode_failure (post : OutboundCall → Except GoError DestinationResponse)
    (s : Shared) (authHeader : String) (body : RequestBody) (e : GoError)
    (hauth : authHeader = "Bearer " ++ s.config.BearerToken)
    (hbind : (ShouldBindJSON body {}).2 = some e) :
    ((webhookHandler post s authHeader body).response = ⟨400, .errorOf e⟩
      ∧ (webhookHandler post s authHeader body).calls = [])
    ∧ (∀ e', (ShouldBindJSON (.malformed e') {}).2 = some e')
    ∧ (∀ v rest, v ≠ .null → (∀ ms, v ≠ .obj ms) →
        (ShouldBindJSON (.json v rest) {}).2 ≠ none)
    ∧ (∀ ms rest k v name kind, (k, v) ∈ ms → (name, kind) ∈ webhookPayload.fields →
        fieldMatch k name = true → kind.accepts v = false →
        (ShouldBindJSON (.json (.obj ms) rest) {}).2 ≠ none)
    ∧ (∀ ms rest k hs k' v name kind, (k, JValue.obj hs) ∈ ms →
        fieldMatch k "heartbeat" = true → (k', v) ∈ hs → (name, kind) ∈ Heartbeat.fields →
        fieldMatch k' name = true → kind.accepts v = false →
        (ShouldBindJSON (.json (.obj ms) rest) {}).2 ≠ none)
    ∧ (∀ ms rest k hs k' v name kind, (k, JValue.obj hs) ∈ ms →
        fieldMatch k "monitor" = true → (k', v) ∈ hs → (name, kind) ∈ Monitor.fields →
        fieldMatch k' name = true → kind.accepts v = false →
        (ShouldBindJSON (.json (.obj ms) rest) {}).2 ≠ none)
    ∧ (∀ v rest rest', ShouldBindJSON (.json v rest) {} = ShouldBindJSON (.json v rest') {})
    ∧ (∀ k (p : webhookPayload) (h : Heartbeat) (m : Monitor),
        (p.setMember k .null).2 = none ∧ (h.setMember k .null).2 = none
        ∧ (m.setMember k .null).2 = none)
    ∧ (∀ rest, (ShouldBindJSON (.json (.obj []) rest) {}).2 = none)
    ∧ (∀ ms ms' rest, List.Sublist ms' ms →
        (ShouldBindJSON (.json (.obj ms) rest) {}).2 = none →
        (ShouldBindJSON (.json (.obj ms') rest) {}).2 = none)
    ∧ (∀ before after k hs hs' rest, List.Sublist hs' hs →
        (ShouldBindJSON (.json (.obj (before ++ (k, .obj hs) :: after)) rest) {}).2 = none →
        (ShouldBindJSON (.json (.obj (before ++ (k, .obj hs') :: after)) rest) {}).2 = none) := by
  refine ⟨?_, fun _ => rfl, ShouldBindJSON_value_rejected, ?_, ?_, ?_, fun _ _ _ => rfl,
    fun k p h m => ⟨payload_setMember_null p k, heartbeat_setMember_null h k,
      monitor_setMember_null m k⟩, fun _ => rfl, ?_, ?_⟩
  · rw [webhookHandler_bindError post s authHeader body e hauth hbind]
    exact ⟨rfl, rfl⟩
  · intro ms rest k v name kind hmem hf hk hv
    exact ShouldBindJSON_member_rejected ms rest k v name kind hmem hf hk hv
  · intro ms rest k hs k' v name kind hmem hk hmem' hf hk' hv
    exact ShouldBindJSON_heartbeat_member_rejected ms rest k hs k' v name kind hmem hk hmem'
      hf hk' hv
  · intro ms rest k hs k' v name kind hmem hk hmem' hf hk' hv
    exact ShouldBindJSON_monitor_member_rejected ms rest k hs k' v name kind hmem hk hmem'
      hf hk' hv
  · intro ms ms' rest hsub h
    exact decodeMembers_sublist _ payload_setMember_snd hsub _ _ h
  · intro before after k hs hs' rest hsub h
    rw [ShouldBindJSON_obj_eq_none] at h ⊢
    intro kv hkv
    simp only [List.mem_append, List.mem_cons] at hkv
    rcases hkv with hk | rfl | hk
    · exact h kv (by simp [hk])
    · exact payload_setMember_obj_sublist {} {} k hsub (h (k, .obj hs) (by simp))
    · exact h kv (by simp [hk])

/-- C6 at the body `{"heartbeat":{"status":"down"},"monitor":{"name":"API"}}`, whose
status is a string: 400 with the type error, no outbound call.  The same failure
is met when the keys are spelled `HeartBeat` and `ſTATUS` (with U+017F) and the
status is `true`, and when `monitor.port` holds the number 443. -/
theorem webhook_decode_failure_witness :
    ((webhookHandler acceptingPost ⟨scenarioConfig, none⟩ "Bearer secret"
        (.json (.obj [("heartbeat", .obj [("status", .str "down")]),
                      ("monitor", .obj [("name", .str "API")])]) "")).response
      = ⟨400, .errorOf (.unmarshalType "string" "heartbeat.status")⟩
    ∧ (webhookHandler acceptingPost ⟨scenarioConfig, none⟩ "Bearer secret"
        (.json (.obj [("heartbeat", .obj [("status", .str "down")]),
                      ("monitor", .obj [("name", .str "API")])]) "")).calls = [])
    ∧ (ShouldBindJSON (.json (.obj [("HeartBeat", .obj [("ſTATUS", .bool true)]),
          ("monitor", .obj [("name", .str "API")])]) "") {}).2 ≠ none
    ∧ (ShouldBindJSON (.json (.obj [("monitor", .obj [("name", .str "API"),
          ("port", .int 443)])]) "") {}).2 ≠ none :=
  ⟨(webhook_decode_failure acceptingPost ⟨scenarioConfig, none⟩ "Bearer secret" _ _
      (by decide) (by decide)).1,
   (webhook_decode_failure acceptingPost ⟨scenarioConfig, none⟩ "Bearer secret"
      (.malformed (.msg "unexpected EOF")) _ (by decide) rfl).2.2.2.2.1
      _ "" "HeartBeat" [("ſTATUS", .bool true)] "ſTATUS" (.bool true) "status" .int
      (by simp) (by decide) (by simp) (by decide) (by decide) (by decide),
   (webhook_decode_failure acceptingPost ⟨scenarioConfig, none⟩ "Bearer secret"
      (.malformed (.msg "unexpected EOF")) _ (by decide) rfl).2.2.2.2.2.1
      _ "" "monitor" [("name", .str "API"), ("port", .int 443)] "port" (.int 443) "port"
      .string (by simp) (by decide) (by simp) (by decide) (by decide) (by decide)⟩

/-! ## A body without a heartbeat status -/

/-- C10: an authenticated request whose body is a JSON object that decodes, has a
non-empty monitor name and in which no member selects `heartbeat.status` (there
is no heartbeat object, or the heartbeat object has no status member) is not
rejected: the status is 0, the one outbound call is titled `name ++ " is Down"`
with color 16711680, and the response is 500 or 200 according to the transport
outcome alone. -/
theorem webhook_missing_status_is_down
    (post : OutboundCall → Except GoError DestinationResponse)
    (s : Shared) (authHeader : String) (ms : List (String × JValue)) (rest : String)
    (hauth : authHeader = "Bearer " ++ s.config.BearerToken)
    (hbind : (ShouldBindJSON (.json (.obj ms) rest) {}).2 = none)
    (hname : (ShouldBindJSON (.json (.obj ms) rest) {}).1.Monitor.Name ≠ "")
    (hstatus : ∀ k v, (k, v) ∈ ms → fieldMatch k "heartbeat" = true → ∀ hs, v = .obj hs →
      ∀ k' v', (k', v') ∈ hs → fieldMatch k' "status" = false) :
    (ShouldBindJSON (.json (.obj ms) rest) {}).1.Heartbeat.Status = 0
    ∧ ∃ call : OutboundCall,
        call =
          { method := "POST"
            url := s.config.WebhookURL
            headers := [("Content-Type", "application/json")]
            body :=
              { content := ""
                embeds :=
                  [{ type_ := "rich"
                     title := (ShouldBindJSON (.json (.obj ms) rest) {}).1.Monitor.Name ++ " is Down"
                     description := (ShouldBindJSON (.json (.obj ms) rest) {}).1.Monitor.Description
                     color := 16711680
                     url := s.config.UptimeURL }] } }
        ∧ (webhookHandler post s authHeader (.json (.obj ms) rest)).calls = [call]
        ∧ (webhookHandler post s authHeader (.json (.obj ms) rest)).response
            = (match post call with
              | .error e => ⟨500, .errorOf e⟩
              | .ok _ => ⟨200, .message "Success"⟩) := by
  have h0 := ShouldBindJSON_status_zero ms rest hstatus
  have hcall : outboundCall s.config (ShouldBindJSON (.json (.obj ms) rest) {}).1 (discordStatus 0)
      = { method := "POST"
          url := s.config.WebhookURL
          headers := [("Content-Type", "application/json")]
          body :=
            { content := ""
              embeds :=
                [{ type_ := "rich"
                   title := (ShouldBindJSON (.json (.obj ms) rest) {}).1.Monitor.Name ++ " is Down"
                   description := (ShouldBindJSON (.json (.obj ms) rest) {}).1.Monitor.Description
                   color := 16711680
                   url := s.config.UptimeURL }] } } := by
    simp only [outboundCall, discordStatus, if_true, String.append_assoc]
    rfl
  refine ⟨h0, _, rfl, ?_, ?_⟩
  · rw [webhookHandler_forward_calls post s authHeader _ hauth hbind hname, h0, hcall]
  · rw [webhookHandler_forward post s authHeader _ hauth hbind hname, h0, hcall]
    split <;> rfl

/-- C10 at the body `{"heartbeat":{"msg":"timeout"},"monitor":{"name":"API"}}`, sent
to a destination that accepts: one call titled "API is Down", answered 200. -/
theorem webhook_missing_status_is_down_witness :
    (ShouldBindJSON (.json (.obj [("heartbeat", .obj [("msg", .str "timeout")]),
        ("monitor", .obj [("name", .str "API")])]) "") {}).1.Heartbeat.Status = 0
    ∧ ∃ call : OutboundCall,
        call =
          { method := "POST"
            url := "https://discord.example/api/webhooks/1"
            headers := [("Content-Type", "application/json")]
            body :=
              { content := ""
                embeds :=
                  [{ type_ := "rich"
                     title := "API is Down"
                     description := ""
                     color := 16711680
                     url := "https://status.example" }] } }
        ∧ (webhookHandler acceptingPost ⟨scenarioConfig, none⟩ "Bearer secret"
            (.json (.obj [("heartbeat", .obj [("msg", .str "timeout")]),
              ("monitor", .obj [("name", .str "API")])]) "")).calls = [call]
        ∧ (webhookHandler acceptingPost ⟨scenarioConfig, none⟩ "Bearer secret"
            (.json (.obj [("heartbeat", .obj [("msg", .str "timeout")]),
              ("monitor", .obj [("name", .str "API")])]) "")).response
            = ⟨200, .message "Success"⟩ := by
  obtain ⟨h0, call, hcall, hcalls, hresp⟩ :=
    webhook_missing_status_is_down acceptingPost ⟨scenarioConfig, none⟩ "Bearer secret"
      [("heartbeat", .obj [("msg", .str "timeout")]), ("monitor", .obj [("name", .str "API")])] ""
      (by decide) (by decide) (by decide)
      (by
        intro k v hmem hk hs hv k' v' hmem'
        simp only [List.mem_cons, Prod.mk.injEq, List.mem_singleton, List.not_mem_nil,
          or_false] at hmem
        rcases hmem with ⟨rfl, rfl⟩ | ⟨rfl, rfl⟩
        · cases hv
          simp only [List.mem_singleton, Prod.mk.injEq] at hmem'
          obtain ⟨rfl, rfl⟩ := hmem'
          decide
        · exact absurd hk (by decide))
  exact ⟨h0, call, hcall, hcalls, hresp⟩

end UptimeKumaRelay
